import Mathlib

/-!
Verification development for the SignalA position-sequence engine.

The definitions below are a shallow embedding of the Python sources:
  * `src/strategies/martingale_manager.py` (class `MartingaleManager`)
  * `src/database/db_manager.py` (sequence operations)
  * `src/database/models.py` (enums and the `PositionSequence` record)

Conventions of the embedding:
  * Python floats are modelled as exact rationals (`ℚ`); the spec demands
    "double precision or better", and all claims are about the exact values.
  * Python `datetime` timestamps are modelled as integer seconds (`ℤ`);
    `timedelta(minutes=m)` becomes `m * 60` seconds.
  * Python truthiness on an optional float (`if x:` / `x or y`) is modelled
    explicitly: `None` and `0` are falsy.
  * Code that can raise (`ValueError`, `KeyError` from `Enum[name]`,
    `ZeroDivisionError`, `TypeError` from `None * float`) returns `Except`.
  * The ORM session is not modelled: each db_manager operation takes the
    current sequence record and returns the updated record (or an error, in
    which case nothing was committed).  The `sequence not found` lookup
    failure is outside the state model.
-/

namespace SignalA

/-- `TradeDirection` enum from `models.py`. -/
inductive TradeDirection
| LONG
| SHORT
deriving DecidableEq, Repr

/-- `SequenceStatus` enum from `models.py`: the only members are ACTIVE,
CLOSED_TP1, CLOSED_TP2, CLOSED_SL, CLOSED_MANUAL, EXPIRED, CANCELLED. -/
inductive SequenceStatus
| ACTIVE
| CLOSED_TP1
| CLOSED_TP2
| CLOSED_SL
| CLOSED_MANUAL
| EXPIRED
| CANCELLED
deriving DecidableEq, Repr

/-- Python `SequenceStatus[name]` (enum lookup by member name): returns the
member when `name` is one of the seven member names, otherwise raises
`KeyError`, modelled as `none`. -/
def SequenceStatus.ofName (name : String) : Option SequenceStatus :=
  if name = "ACTIVE" then some .ACTIVE
  else if name = "CLOSED_TP1" then some .CLOSED_TP1
  else if name = "CLOSED_TP2" then some .CLOSED_TP2
  else if name = "CLOSED_SL" then some .CLOSED_SL
  else if name = "CLOSED_MANUAL" then some .CLOSED_MANUAL
  else if name = "EXPIRED" then some .EXPIRED
  else if name = "CANCELLED" then some .CANCELLED
  else none

/-- Runtime failures of the embedded Python code. `valueError` covers the
explicit `raise ValueError` paths; `keyError` is `Enum[name]` on a missing
name; `zeroDivisionError` is `x / 0`; `typeError` is `None * float`. -/
inductive Err
| valueError
| keyError
| zeroDivisionError
| typeError
deriving DecidableEq, Repr

/-- The fields of a `BotSignal` row used by the sequence engine
(`_calculate_next_margin` and `close_sequence`). -/
structure BotSignal where
  step_number : ℕ
  status : String
  direction : String
  entry_price : ℚ
  actual_margin : Option ℚ
  recommended_margin : Option ℚ
  recommended_leverage : Option ℚ
deriving DecidableEq, Repr

/-- The `PositionSequence` record from `models.py`, restricted to the fields
the sequence engine reads or writes. -/
structure PositionSequence where
  id : ℕ
  symbol : String
  direction : TradeDirection
  status : SequenceStatus
  current_step : ℕ
  max_steps : ℕ
  first_entry_price : ℚ
  last_entry_price : Option ℚ
  weighted_avg_entry : ℚ
  total_margin : ℚ
  total_leverage : Option ℚ
  current_tp1 : Option ℚ
  current_tp2 : Option ℚ
  current_sl : Option ℚ
  trigger_percent : ℚ
  step1_multiplier : ℚ
  step2_plus_multiplier : ℚ
  opened_at : ℤ
  closed_at : Option ℤ
  last_martingale_suggestion_at : Option ℤ
  final_exit_price : Option ℚ
  total_pnl : Option ℚ
  total_pnl_pct : Option ℚ
  updated_at : ℤ
  signals : List BotSignal
deriving DecidableEq, Repr

/-- Python truthiness of an optional float: `None` and `0` are falsy. -/
def truthy : Option ℚ → Bool
| none => false
| some x => x ≠ 0

/-- Python `a or d` for an optional float `a` and a float default `d`. -/
def orFloat (a : Option ℚ) (d : ℚ) : ℚ :=
  match a with
  | none => d
  | some x => if x = 0 then d else x

/-- Python `a or b` for two optional floats. -/
def orOpt (a b : Option ℚ) : Option ℚ :=
  match a with
  | none => b
  | some x => if x = 0 then b else some x

/-- Python `round(x, 2)`.  `round` on `ℚ` rounds half away from even in a
different way than CPython's float `round` at exact ties; no claim depends
on tie behaviour. -/
def round2 (x : ℚ) : ℚ :=
  ((round (x * 100) : ℤ) : ℚ) / 100

/-- Constructor parameters of `MartingaleManager` (martingale_manager.py).
`cooldown_minutes` is a Python `int`. -/
structure MartingaleManager where
  max_steps : ℕ
  trigger_percent : ℚ
  step1_multiplier : ℚ
  step2_plus_multiplier : ℚ
  tp1_percent : ℚ
  tp2_percent : ℚ
  cooldown_minutes : ℤ
deriving DecidableEq, Repr

/-- `MartingaleManager._calculate_price_move_pct`.  The caller guarantees
`entry_price ≠ 0` (Python would raise `ZeroDivisionError`; the one call site,
`should_add_martingale`, is modelled with an explicit guard). -/
def calculate_price_move_pct (entry_price current_price : ℚ)
    (direction : TradeDirection) : ℚ :=
  match direction with
  | .SHORT => ((current_price - entry_price) / entry_price) * 100
  | .LONG => ((entry_price - current_price) / entry_price) * 100

/-- `MartingaleManager._calculate_next_margin`.
`sorted(sequence.signals, key=step_number)[-1]` is a stable sort followed by
taking the last element; `actual_margin or recommended_margin` is Python
truthiness; a resulting `None` margin would make `None * multiplier` raise
`TypeError`; the empty-signals fallback `total_margin / current_step` raises
`ZeroDivisionError` when `current_step == 0`. -/
def calculate_next_margin (m : MartingaleManager) (s : PositionSequence) :
    Except Err ℚ :=
  match
    (match s.signals with
     | [] =>
         if s.current_step = 0 then Except.error Err.zeroDivisionError
         else Except.ok (s.total_margin / (s.current_step : ℚ))
     | _ :: _ =>
         match (s.signals.mergeSort
             (fun a b => a.step_number ≤ b.step_number)).getLast? with
         | none => Except.error Err.typeError
         | some last_signal =>
             match orOpt last_signal.actual_margin
                 last_signal.recommended_margin with
             | none => Except.error Err.typeError
             | some x => Except.ok x) with
  | .error e => .error e
  | .ok last_margin =>
      .ok (round2 (last_margin *
        (if s.current_step = 1 then m.step1_multiplier
         else m.step2_plus_multiplier)))

/-- `MartingaleManager._calculate_new_weighted_avg`:
`(weighted_avg_entry * total_margin + new_entry_price * new_margin)
 / (total_margin + new_margin)`.  The function performs no input validation;
callers guard the zero denominator (Python raises `ZeroDivisionError`). -/
def calculate_new_weighted_avg (s : PositionSequence)
    (new_entry_price new_margin : ℚ) : ℚ :=
  (s.weighted_avg_entry * s.total_margin + new_entry_price * new_margin) /
    (s.total_margin + new_margin)

/-- `MartingaleManager._calculate_new_tps`: TP1/TP2 offsets from the weighted
average, using the manager's `tp1_percent`/`tp2_percent`. -/
def calculate_new_tps (m : MartingaleManager) (avg_entry : ℚ)
    (direction : TradeDirection) : ℚ × ℚ :=
  match direction with
  | .SHORT =>
      (avg_entry * (1 - m.tp1_percent / 100), avg_entry * (1 - m.tp2_percent / 100))
  | .LONG =>
      (avg_entry * (1 + m.tp1_percent / 100), avg_entry * (1 + m.tp2_percent / 100))

/-- The suggestion dict built by `MartingaleManager.should_add_martingale`. -/
structure Suggestion where
  sequence_id : ℕ
  current_step : ℕ
  next_step : ℕ
  max_steps : ℕ
  symbol : String
  direction : TradeDirection
  last_entry_price : ℚ
  current_price : ℚ
  price_move_pct : ℚ
  trigger_percent : ℚ
  suggested_entry : ℚ
  suggested_margin : ℚ
  current_weighted_avg : ℚ
  new_weighted_avg : ℚ
  current_total_margin : ℚ
  new_total_margin : ℚ
  current_tp1 : Option ℚ
  current_tp2 : Option ℚ
  new_tp1 : ℚ
  new_tp2 : ℚ
deriving DecidableEq, Repr

/-- Body of `should_add_martingale` after the status / max-step / cooldown
gates have all passed (the code from `last_entry = ...` onwards). -/
def should_add_checks_passed (m : MartingaleManager) (s : PositionSequence)
    (current_price : ℚ) : Except Err (Bool × Option Suggestion) :=
  if orFloat s.last_entry_price s.first_entry_price = 0 then
    .error .zeroDivisionError
  else if calculate_price_move_pct (orFloat s.last_entry_price s.first_entry_price)
      current_price s.direction < m.trigger_percent then
    .ok (false, none)
  else
    match calculate_next_margin m s with
    | .error e => .error e
    | .ok suggested_margin =>
        if s.total_margin + suggested_margin = 0 then .error .zeroDivisionError
        else
          .ok (true, some {
            sequence_id := s.id
            current_step := s.current_step
            next_step := s.current_step + 1
            max_steps := s.max_steps
            symbol := s.symbol
            direction := s.direction
            last_entry_price := orFloat s.last_entry_price s.first_entry_price
            current_price := current_price
            price_move_pct := calculate_price_move_pct
              (orFloat s.last_entry_price s.first_entry_price) current_price
              s.direction
            trigger_percent := m.trigger_percent
            suggested_entry := current_price
            suggested_margin := suggested_margin
            current_weighted_avg := s.weighted_avg_entry
            new_weighted_avg := calculate_new_weighted_avg s current_price
              suggested_margin
            current_total_margin := s.total_margin
            new_total_margin := s.total_margin + suggested_margin
            current_tp1 := s.current_tp1
            current_tp2 := s.current_tp2
            new_tp1 := (calculate_new_tps m
              (calculate_new_weighted_avg s current_price suggested_margin)
              s.direction).1
            new_tp2 := (calculate_new_tps m
              (calculate_new_weighted_avg s current_price suggested_margin)
              s.direction).2 })

/-- `MartingaleManager.should_add_martingale` (the Trigger Evaluator).
Gate order as in the source: status, max-step cap (against the manager's
`max_steps`), cooldown (`now - last < cooldown_minutes` minutes), then the
price-move trigger.  `now` is the `datetime.utcnow()` read, in seconds. -/
def should_add_martingale (m : MartingaleManager) (s : PositionSequence)
    (current_price : ℚ) (now : ℤ) : Except Err (Bool × Option Suggestion) :=
  if s.status ≠ SequenceStatus.ACTIVE then .ok (false, none)
  else if m.max_steps ≤ s.current_step then .ok (false, none)
  else
    match s.last_martingale_suggestion_at with
    | some t =>
        if now - t < m.cooldown_minutes * 60 then .ok (false, none)
        else should_add_checks_passed m s current_price
    | none => should_add_checks_passed m s current_price

/-- Result dict of `MartingaleManager.calculate_sequence_pnl`. -/
structure PnlResult where
  weighted_avg_entry : ℚ
  exit_price : ℚ
  pnl_pct : ℚ
  total_pnl : ℚ
  pnl_per_step : ℚ
  total_margin : ℚ
  leverage : ℚ
  steps : ℕ
deriving DecidableEq, Repr

/-- `MartingaleManager.calculate_sequence_pnl`: PnL of the whole sequence
from the weighted average entry.  `avg_leverage = total_leverage or 20`
(truthiness).  Divisions by `weighted_avg_entry` and `current_step` raise
`ZeroDivisionError` when zero. -/
def calculate_sequence_pnl (s : PositionSequence) (exit_price : ℚ) :
    Except Err PnlResult :=
  if s.weighted_avg_entry = 0 then .error .zeroDivisionError
  else
    let pnl_pct : ℚ :=
      match s.direction with
      | .SHORT => ((s.weighted_avg_entry - exit_price) / s.weighted_avg_entry) * 100
      | .LONG => ((exit_price - s.weighted_avg_entry) / s.weighted_avg_entry) * 100
    let avg_leverage := orFloat s.total_leverage 20
    let total_pnl := s.total_margin * avg_leverage * (pnl_pct / 100)
    if s.current_step = 0 then .error .zeroDivisionError
    else .ok {
      weighted_avg_entry := s.weighted_avg_entry
      exit_price := exit_price
      pnl_pct := pnl_pct
      total_pnl := total_pnl
      pnl_per_step := total_pnl / (s.current_step : ℚ)
      total_margin := s.total_margin
      leverage := avg_leverage
      steps := s.current_step }

/-- `MartingaleManager.check_sequence_close` (the Exit Evaluator).
Levels are guarded by Python truthiness (`if sequence.current_tp2 and ...`):
a `None` or `0` level never fires.  TP2 is checked before TP1, then SL. -/
def check_sequence_close (s : PositionSequence) (current_price : ℚ) :
    Bool × Option String :=
  if s.status ≠ SequenceStatus.ACTIVE then (false, none)
  else
    match s.direction with
    | .SHORT =>
        if truthy s.current_tp2 ∧ current_price ≤ (s.current_tp2.getD 0) then
          (true, some "HIT_TP2")
        else if truthy s.current_tp1 ∧ current_price ≤ (s.current_tp1.getD 0) then
          (true, some "HIT_TP1")
        else if truthy s.current_sl ∧ (s.current_sl.getD 0) ≤ current_price then
          (true, some "HIT_SL")
        else (false, none)
    | .LONG =>
        if truthy s.current_tp2 ∧ (s.current_tp2.getD 0) ≤ current_price then
          (true, some "HIT_TP2")
        else if truthy s.current_tp1 ∧ (s.current_tp1.getD 0) ≤ current_price then
          (true, some "HIT_TP1")
        else if truthy s.current_sl ∧ current_price ≤ (s.current_sl.getD 0) then
          (true, some "HIT_SL")
        else (false, none)

/-- `DatabaseManager.create_position_sequence` (the `create` operation):
builds a fresh ACTIVE sequence at step 1 whose weighted average equals the
first entry price and whose total margin is the first margin.  The store
assigns the row id; here it is a parameter of the embedding. -/
def create_position_sequence (id : ℕ) (symbol : String)
    (direction : TradeDirection) (entry_price margin : ℚ)
    (leverage : Option ℚ) (tp1 tp2 sl : Option ℚ) (max_steps : ℕ)
    (trigger_percent step1_multiplier step2_plus_multiplier : ℚ)
    (now : ℤ) : PositionSequence :=
  { id := id
    symbol := symbol
    direction := direction
    status := SequenceStatus.ACTIVE
    current_step := 1
    max_steps := max_steps
    first_entry_price := entry_price
    last_entry_price := some entry_price
    weighted_avg_entry := entry_price
    total_margin := margin
    total_leverage := leverage
    current_tp1 := tp1
    current_tp2 := tp2
    current_sl := sl
    trigger_percent := trigger_percent
    step1_multiplier := step1_multiplier
    step2_plus_multiplier := step2_plus_multiplier
    opened_at := now
    closed_at := none
    last_martingale_suggestion_at := none
    final_exit_price := none
    total_pnl := none
    total_pnl_pct := none
    updated_at := now
    signals := [] }

/-- `DatabaseManager.add_martingale_to_sequence` (the `advance` operation).
Validates only that the sequence is ACTIVE (`raise ValueError` otherwise);
then recomputes the weighted average and rederives TP1/TP2 from it with the
hardcoded offsets 0.90 / 0.85 (SHORT) and 1.10 / 1.15 (LONG), increments
`current_step`, and updates `last_entry_price` / `total_margin` /
`updated_at`.  `if leverage:` is Python truthiness.  The division raises
`ZeroDivisionError` when `total_margin + margin = 0`. -/
def add_martingale_to_sequence (s : PositionSequence)
    (entry_price margin : ℚ) (leverage : Option ℚ) (now : ℤ) :
    Except Err PositionSequence :=
  if s.status ≠ SequenceStatus.ACTIVE then .error .valueError
  else
    let current_total_value := s.weighted_avg_entry * s.total_margin
    let new_total_value := current_total_value + entry_price * margin
    let new_total_margin := s.total_margin + margin
    if new_total_margin = 0 then .error .zeroDivisionError
    else
      let new_weighted_avg := new_total_value / new_total_margin
      let new_tp1 :=
        match s.direction with
        | .SHORT => new_weighted_avg * (90 / 100)
        | .LONG => new_weighted_avg * (110 / 100)
      let new_tp2 :=
        match s.direction with
        | .SHORT => new_weighted_avg * (85 / 100)
        | .LONG => new_weighted_avg * (115 / 100)
      .ok { s with
        current_step := s.current_step + 1
        last_entry_price := some entry_price
        weighted_avg_entry := new_weighted_avg
        total_margin := new_total_margin
        current_tp1 := some new_tp1
        current_tp2 := some new_tp2
        total_leverage := if truthy leverage then leverage else s.total_leverage
        updated_at := now }

/-- The error behaviour of `close_sequence`'s per-signal loop, walking the
signals in iteration order.  For each ACTIVE child signal the source first
divides by the signal's own `entry_price` (`ZeroDivisionError` when 0) and
then computes `signal_margin = actual_margin or recommended_margin`: when
that evaluates to `None` (both columns nullable), the following
`signal_margin * signal_leverage` raises `TypeError`.  The remaining
operations in the loop cannot raise: `signal_leverage = recommended_leverage
or 20` is always a float, and `signal_time` is a non-nullable column. -/
def close_signals_check : List BotSignal → Except Err Unit
| [] => .ok ()
| g :: rest =>
    if g.status = "ACTIVE" then
      if g.entry_price = 0 then .error .zeroDivisionError
      else
        match orOpt g.actual_margin g.recommended_margin with
        | none => .error .typeError
        | some _ => close_signals_check rest
    else close_signals_check rest

/-- `DatabaseManager.close_sequence` (the `close` operation).  There is no
status check: any found sequence is processed.  Order as in the source:
PnL from the weighted average (raises `ZeroDivisionError` when it is 0),
`leverage = total_leverage or 20`, then `SequenceStatus[outcome]` (raises
`KeyError` when `outcome` is not a member name), then every ACTIVE child
signal is flipped to CLOSED and its per-signal PnL computed — the error
paths of that loop are `close_signals_check`.  The per-signal
`SignalResult` rows live in a separate table and are not part of the
sequence state. -/
def close_sequence (s : PositionSequence) (exit_price : ℚ) (outcome : String)
    (now : ℤ) : Except Err PositionSequence :=
  if s.weighted_avg_entry = 0 then .error .zeroDivisionError
  else
    let pnl_pct : ℚ :=
      match s.direction with
      | .SHORT => ((s.weighted_avg_entry - exit_price) / s.weighted_avg_entry) * 100
      | .LONG => ((exit_price - s.weighted_avg_entry) / s.weighted_avg_entry) * 100
    let leverage := orFloat s.total_leverage 20
    let total_pnl := s.total_margin * leverage * (pnl_pct / 100)
    match SequenceStatus.ofName outcome with
    | none => .error .keyError
    | some st =>
        match close_signals_check s.signals with
        | .error e => .error e
        | .ok _ =>
            .ok { s with
              status := st
              closed_at := some now
              final_exit_price := some exit_price
              total_pnl := some total_pnl
              total_pnl_pct := some pnl_pct
              updated_at := now
              signals := s.signals.map (fun g =>
                if g.status = "ACTIVE" then { g with status := "CLOSED" }
                else g) }

/-- `DatabaseManager.update_sequence_martingale_suggestion_time`: the
tracker stamps `last_martingale_suggestion_at = now` after a suggestion is
sent (`_check_sequences_for_martingale` in signal_tracker.py). -/
def update_suggestion_time (s : PositionSequence) (now : ℤ) : PositionSequence :=
  { s with last_martingale_suggestion_at := some now }

/-- Repeated `advance`: apply `add_martingale_to_sequence` once per listed
(price, margin) entry, left to right, stopping at the first error. -/
def apply_entries (s : PositionSequence) (l : List (ℚ × ℚ)) (now : ℤ) :
    Except Err PositionSequence :=
  match l with
  | [] => .ok s
  | (p, m) :: rest =>
      match add_martingale_to_sequence s p m none now with
      | .error e => .error e
      | .ok s' => apply_entries s' rest now

/-- Margin-weighted value `Σ pᵢ·mᵢ` of a list of (price, margin) entries. -/
def entriesValue (l : List (ℚ × ℚ)) : ℚ :=
  (l.map (fun pm => pm.1 * pm.2)).sum

/-- Total margin `Σ mᵢ` of a list of (price, margin) entries. -/
def entriesMargin (l : List (ℚ × ℚ)) : ℚ :=
  (l.map Prod.snd).sum

/-- The manager as constructed in `main.py`: `MartingaleManager(max_steps=5,
trigger_percent=15.0, step1_multiplier=2.5, step2_plus_multiplier=1.35,
tp1_percent=10.0, tp2_percent=15.0, cooldown_minutes=30)`. -/
def mgrW : MartingaleManager :=
  { max_steps := 5
    trigger_percent := 15
    step1_multiplier := 5 / 2
    step2_plus_multiplier := 27 / 20
    tp1_percent := 10
    tp2_percent := 15
    cooldown_minutes := 30 }

/-- A concrete ACTIVE one-step SHORT sequence: entry $1, margin $20,
leverage 20, TP1/TP2 at the −10%/−15% offsets, no stop, no prior
suggestion. -/
def seqW : PositionSequence :=
  { id := 1
    symbol := "TURBO-USDT"
    direction := .SHORT
    status := .ACTIVE
    current_step := 1
    max_steps := 5
    first_entry_price := 1
    last_entry_price := none
    weighted_avg_entry := 1
    total_margin := 20
    total_leverage := some 20
    current_tp1 := some (9 / 10)
    current_tp2 := some (17 / 20)
    current_sl := none
    trigger_percent := 15
    step1_multiplier := 5 / 2
    step2_plus_multiplier := 27 / 20
    opened_at := 0
    closed_at := none
    last_martingale_suggestion_at := none
    final_exit_price := none
    total_pnl := none
    total_pnl_pct := none
    updated_at := 0
    signals := [] }

/-- `seqW` already at the step cap (`current_step = max_steps = 5`). -/
def seqAtCap : PositionSequence :=
  { seqW with current_step := 5 }

/-- `seqW` in the terminal CANCELLED status. -/
def seqCancelled : PositionSequence :=
  { seqW with status := .CANCELLED }

/-- The spec's worked PnL example: weighted average 0.007250 = 29/4000,
total margin $70, leverage 20, two steps. -/
def seqPnl : PositionSequence :=
  { seqW with
    weighted_avg_entry := 29 / 4000
    total_margin := 70
    current_step := 2 }

/-- `seqW` with every exit level unset or zero. -/
def seqNoLevels : PositionSequence :=
  { seqW with current_tp1 := none, current_tp2 := some 0, current_sl := none }

/-- The suggestion that `should_add_martingale` produces for `mgrW`, `seqW`
at current price 1.2 and time 1000: price moved +20% ≥ 15%, suggested margin
$20 × 2.5 = $50, projected average (1·20 + 1.2·50)/70 = 8/7 with the
projected SHORT TPs at −10%/−15% of it. -/
def propW : Suggestion :=
  { sequence_id := 1
    current_step := 1
    next_step := 2
    max_steps := 5
    symbol := "TURBO-USDT"
    direction := .SHORT
    last_entry_price := 1
    current_price := 6 / 5
    price_move_pct := 20
    trigger_percent := 15
    suggested_entry := 6 / 5
    suggested_margin := 50
    current_weighted_avg := 1
    new_weighted_avg := 8 / 7
    current_total_margin := 20
    new_total_margin := 70
    current_tp1 := some (9 / 10)
    current_tp2 := some (17 / 20)
    new_tp1 := 36 / 35
    new_tp2 := 34 / 35 }

/-- On an ACTIVE sequence with a nonzero new total margin, `advance`
succeeds and the updated record is exactly the source's field assignments. -/
lemma add_martingale_ok (s : PositionSequence) (p mg : ℚ) (lev : Option ℚ)
    (now : ℤ) (hA : s.status = SequenceStatus.ACTIVE)
    (hm : s.total_margin + mg ≠ 0) :
    add_martingale_to_sequence s p mg lev now = .ok { s with
      current_step := s.current_step + 1
      last_entry_price := some p
      weighted_avg_entry :=
        (s.weighted_avg_entry * s.total_margin + p * mg) / (s.total_margin + mg)
      total_margin := s.total_margin + mg
      current_tp1 := some
        (match s.direction with
         | .SHORT => (s.weighted_avg_entry * s.total_margin + p * mg) /
             (s.total_margin + mg) * (90 / 100)
         | .LONG => (s.weighted_avg_entry * s.total_margin + p * mg) /
             (s.total_margin + mg) * (110 / 100))
      current_tp2 := some
        (match s.direction with
         | .SHORT => (s.weighted_avg_entry * s.total_margin + p * mg) /
             (s.total_margin + mg) * (85 / 100)
         | .LONG => (s.weighted_avg_entry * s.total_margin + p * mg) /
             (s.total_margin + mg) * (115 / 100))
      total_leverage := if truthy lev then lev else s.total_leverage
      updated_at := now } := by
  unfold add_martingale_to_sequence
  simp [hA, hm]

/-- Invariant of repeated `advance`: starting from an ACTIVE sequence with
positive total margin and adding entries with positive margins always
succeeds, keeps the sequence ACTIVE, accumulates the margins, and the
product `weighted_avg_entry * total_margin` accumulates `Σ pᵢ·mᵢ`. -/
lemma apply_entries_ok : ∀ (l : List (ℚ × ℚ)) (s : PositionSequence) (now : ℤ),
    s.status = SequenceStatus.ACTIVE → 0 < s.total_margin →
    (∀ pm ∈ l, 0 < pm.2) →
    ∃ s', apply_entries s l now = .ok s' ∧
      s'.status = SequenceStatus.ACTIVE ∧
      s'.total_margin = s.total_margin + entriesMargin l ∧
      0 < s'.total_margin ∧
      s'.weighted_avg_entry * s'.total_margin =
        s.weighted_avg_entry * s.total_margin + entriesValue l := by
  intro l
  induction l with
  | nil =>
      intro s now hA hM _
      exact ⟨s, rfl, hA, by simp [entriesMargin], hM, by simp [entriesValue]⟩
  | cons pm rest ih =>
      intro s now hA hM hpos
      obtain ⟨p, mg⟩ := pm
      have hmg : 0 < mg := hpos (p, mg) (List.mem_cons_self _ _)
      have hM' : 0 < s.total_margin + mg := by linarith
      have hne : s.total_margin + mg ≠ 0 := ne_of_gt hM'
      have hstep := add_martingale_ok s p mg none now hA hne
      set s1 : PositionSequence := { s with
        current_step := s.current_step + 1
        last_entry_price := some p
        weighted_avg_entry :=
          (s.weighted_avg_entry * s.total_margin + p * mg) / (s.total_margin + mg)
        total_margin := s.total_margin + mg
        current_tp1 := some
          (match s.direction with
           | .SHORT => (s.weighted_avg_entry * s.total_margin + p * mg) /
               (s.total_margin + mg) * (90 / 100)
           | .LONG => (s.weighted_avg_entry * s.total_margin + p * mg) /
               (s.total_margin + mg) * (110 / 100))
        current_tp2 := some
          (match s.direction with
           | .SHORT => (s.weighted_avg_entry * s.total_margin + p * mg) /
               (s.total_margin + mg) * (85 / 100)
           | .LONG => (s.weighted_avg_entry * s.total_margin + p * mg) /
               (s.total_margin + mg) * (115 / 100))
        total_leverage := if truthy none then none else s.total_leverage
        updated_at := now } with hs1
      obtain ⟨s', hrun, hA', hMtot, hMpos, hV⟩ :=
        ih s1 now (by simp [hs1, hA]) (by simpa [hs1] using hM')
          (fun q hq => hpos q (List.mem_cons_of_mem _ hq))
      refine ⟨s', ?_, hA', ?_, hMpos, ?_⟩
      · unfold apply_entries
        rw [hstep]
        exact hrun
      · have h1 : s1.total_margin = s.total_margin + mg := by simp [hs1]
        rw [hMtot, h1, entriesMargin, entriesMargin]
        simp [List.map_cons]
        ring
      · have h1 : s1.total_margin = s.total_margin + mg := by simp [hs1]
        have h2 : s1.weighted_avg_entry =
            (s.weighted_avg_entry * s.total_margin + p * mg) /
              (s.total_margin + mg) := by simp [hs1]
        rw [hV, h1, h2, div_mul_cancel₀ _ hne, entriesValue, entriesValue]
        simp [List.map_cons]
        ring

/-- A positive Trigger-Evaluator verdict implies the three gates passed:
the sequence is ACTIVE, below the manager's step cap, and the remaining
checks produced the same verdict. -/
lemma should_add_true_elim (m : MartingaleManager) (s : PositionSequence)
    (p : ℚ) (now : ℤ) (o : Option Suggestion)
    (h : should_add_martingale m s p now = .ok (true, o)) :
    s.status = SequenceStatus.ACTIVE ∧ s.current_step < m.max_steps ∧
      should_add_checks_passed m s p = .ok (true, o) := by
  unfold should_add_martingale at h
  split at h
  · exact absurd h (by simp)
  · rename_i h1
    split at h
    · exact absurd h (by simp)
    · rename_i h2
      have hA : s.status = SequenceStatus.ACTIVE := not_not.mp h1
      have hstep : s.current_step < m.max_steps := by omega
      split at h
      · rename_i t heq
        split at h
        · exact absurd h (by simp)
        · exact ⟨hA, hstep, h⟩
      · exact ⟨hA, hstep, h⟩

/-- A positive verdict of the post-gate checks determines every projected
field of the suggestion: the margin comes from the Margin Progression
Policy, the projected average from the Weighted-Average Calculator, and the
projected TPs from `_calculate_new_tps` on that average. -/
lemma checks_passed_true_elim (m : MartingaleManager) (s : PositionSequence)
    (p : ℚ) (prop : Suggestion)
    (h : should_add_checks_passed m s p = .ok (true, some prop)) :
    ∃ sm, calculate_next_margin m s = .ok sm ∧
      s.total_margin + sm ≠ 0 ∧
      prop.suggested_entry = p ∧
      prop.suggested_margin = sm ∧
      prop.new_weighted_avg = calculate_new_weighted_avg s p sm ∧
      prop.new_tp1 =
        (calculate_new_tps m (calculate_new_weighted_avg s p sm) s.direction).1 ∧
      prop.new_tp2 =
        (calculate_new_tps m (calculate_new_weighted_avg s p sm) s.direction).2 := by
  simp only [should_add_checks_passed] at h
  split at h
  · exact absurd h (by simp)
  · rename_i h1
    split at h
    · exact absurd h (by simp)
    · rename_i h2
      split at h
      · exact absurd h (by simp)
      · rename_i sm hm
        split at h
        · exact absurd h (by simp)
        · rename_i h3
          simp only [Except.ok.injEq, Prod.mk.injEq, Option.some.injEq,
            true_and] at h
          exact ⟨sm, hm, h3, by rw [← h], by rw [← h], by rw [← h],
            by rw [← h], by rw [← h]⟩

/-- `close_sequence` on a sequence with nonzero weighted average, an outcome
naming a real `SequenceStatus` member, and a per-signal loop that can
proceed (no ACTIVE child signal with zero entry price or `None` effective
margin), succeeds with exactly the source's field assignments. -/
lemma close_sequence_ok (s : PositionSequence) (exit_price : ℚ)
    (outcome : String) (st : SequenceStatus) (now : ℤ)
    (hw : s.weighted_avg_entry ≠ 0)
    (hst : SequenceStatus.ofName outcome = some st)
    (hg : close_signals_check s.signals = .ok ()) :
    close_sequence s exit_price outcome now = .ok { s with
      status := st
      closed_at := some now
      final_exit_price := some exit_price
      total_pnl := some (s.total_margin * orFloat s.total_leverage 20 *
        ((match s.direction with
          | .SHORT => ((s.weighted_avg_entry - exit_price) /
              s.weighted_avg_entry) * 100
          | .LONG => ((exit_price - s.weighted_avg_entry) /
              s.weighted_avg_entry) * 100) / 100))
      total_pnl_pct := some
        (match s.direction with
         | .SHORT => ((s.weighted_avg_entry - exit_price) /
             s.weighted_avg_entry) * 100
         | .LONG => ((exit_price - s.weighted_avg_entry) /
             s.weighted_avg_entry) * 100)
      updated_at := now
      signals := s.signals.map (fun g =>
        if g.status = "ACTIVE" then { g with status := "CLOSED" } else g) } := by
  unfold close_sequence
  rw [if_neg (by simp [hw]), hst]
  simp [hg]

/-- A level that is `None` or exactly `0` is falsy in Python. -/
lemma truthy_eq_false (o : Option ℚ) (h : o = none ∨ o = some 0) :
    truthy o = false := by
  rcases h with rfl | rfl <;> simp [truthy]

/-- Concrete run of the Trigger Evaluator: with the `main.py` manager and
the $1-entry SHORT sequence `seqW`, a current price of 1.2 (a +20% adverse
move) triggers and yields exactly the suggestion `propW`. -/
lemma should_add_mgrW_seqW :
    should_add_martingale mgrW seqW (6 / 5) 1000 = .ok (true, some propW) := by
  have hmargin : calculate_next_margin mgrW seqW = .ok 50 := by
    unfold calculate_next_margin
    simp only [seqW, mgrW]
    norm_num [round2]
  unfold should_add_martingale
  rw [if_neg (by simp [seqW]), if_neg (by simp [seqW, mgrW])]
  show should_add_checks_passed mgrW seqW (6 / 5) = _
  unfold should_add_checks_passed
  rw [if_neg (by norm_num [orFloat, seqW])]
  rw [if_neg (by norm_num [calculate_price_move_pct, orFloat, seqW, mgrW])]
  rw [hmargin]
  dsimp only
  rw [if_neg (by norm_num [seqW])]
  simp only [propW, calculate_new_weighted_avg, calculate_new_tps, orFloat,
    calculate_price_move_pct, seqW, mgrW]
  norm_num

/-- `close_sequence` fails whenever the outcome string is not a
`SequenceStatus` member name (Python `KeyError`), or earlier with the
zero-average division. -/
lemma close_sequence_bad_name (s : PositionSequence) (exit_price : ℚ)
    (outcome : String) (now : ℤ)
    (hst : SequenceStatus.ofName outcome = none) :
    ∃ e, close_sequence s exit_price outcome now = .error e := by
  unfold close_sequence
  by_cases hw : s.weighted_avg_entry = 0
  · exact ⟨.zeroDivisionError, by rw [if_pos (by simp [hw])]⟩
  · exact ⟨.keyError, by rw [if_neg (by simp [hw]), hst]⟩

/-- C1: for every sequence built by `create` followed by further `advance`
calls with strictly positive margins, `weighted_avg_entry` equals the
margin-weighted mean `Σ pᵢ·mᵢ / Σ mᵢ` over all committed entries; and each
single `advance` computes the new average as
`(priorAvg · priorTotalMargin + newPrice · newMargin) /
 (priorTotalMargin + newMargin)`. -/
theorem weighted_avg_is_margin_weighted_mean :
    (∀ (id : ℕ) (sym : String) (d : TradeDirection) (p1 m1 : ℚ)
        (lev tp1 tp2 sl : Option ℚ) (ms : ℕ) (tr s1m s2m : ℚ) (now now' : ℤ)
        (l : List (ℚ × ℚ)),
      0 < m1 → (∀ pm ∈ l, 0 < pm.2) →
      ∃ s', apply_entries
          (create_position_sequence id sym d p1 m1 lev tp1 tp2 sl ms tr s1m
            s2m now)
          l now' = .ok s' ∧
        s'.weighted_avg_entry =
          (p1 * m1 + entriesValue l) / (m1 + entriesMargin l) ∧
        s'.total_margin = m1 + entriesMargin l) ∧
    (∀ (s : PositionSequence) (p mg : ℚ) (now : ℤ),
      s.status = SequenceStatus.ACTIVE → s.total_margin + mg ≠ 0 →
      ∃ s', add_martingale_to_sequence s p mg none now = .ok s' ∧
        s'.weighted_avg_entry =
          (s.weighted_avg_entry * s.total_margin + p * mg) /
            (s.total_margin + mg)) := by
  constructor
  · intro id sym d p1 m1 lev tp1 tp2 sl ms tr s1m s2m now now' l hm1 hl
    obtain ⟨s', hrun, hA', hMtot, hMpos, hV⟩ :=
      apply_entries_ok l
        (create_position_sequence id sym d p1 m1 lev tp1 tp2 sl ms tr s1m
          s2m now)
        now' rfl (by simpa [create_position_sequence] using hm1) hl
    have hMtot' : s'.total_margin = m1 + entriesMargin l := by
      simpa [create_position_sequence] using hMtot
    have hne : (m1 + entriesMargin l) ≠ 0 := by
      rw [← hMtot']
      exact ne_of_gt hMpos
    refine ⟨s', hrun, ?_, hMtot'⟩
    rw [eq_div_iff hne, ← hMtot']
    simpa [create_position_sequence] using hV
  · intro s p mg now hA hne
    exact ⟨_, add_martingale_ok s p mg none now hA hne, rfl⟩

/-- Witness for C1 at the spec's worked example: `create` at price 1.00 /
margin $20 then one `advance` at price 1.15 / margin $50. -/
theorem weighted_avg_is_margin_weighted_mean_witness :
    ∃ s', apply_entries
        (create_position_sequence 1 "X" .SHORT 1 20 none none none none 5 15
          (5 / 2) (27 / 20) 0)
        [((23 : ℚ) / 20, 50)] 7 = .ok s' ∧
      s'.weighted_avg_entry =
        (1 * 20 + entriesValue [((23 : ℚ) / 20, 50)]) /
          (20 + entriesMargin [((23 : ℚ) / 20, 50)]) ∧
      s'.total_margin = 20 + entriesMargin [((23 : ℚ) / 20, 50)] :=
  weighted_avg_is_margin_weighted_mean.1 1 "X" .SHORT 1 20 none none none
    none 5 15 (5 / 2) (27 / 20) 0 7 [((23 : ℚ) / 20, 50)] (by norm_num)
    (fun pm hpm => by
      rcases List.mem_singleton.mp hpm with rfl
      norm_num)

/-- C2: the claim says `close` on an ACTIVE sequence with an Exit-Evaluator
outcome in {HIT_TP1, HIT_TP2, HIT_SL} succeeds and installs the matching
CLOSED_* status.  The code instead evaluates `SequenceStatus[outcome]`, and
the `SequenceStatus` enum has no `HIT_*` member, so every such call raises
`KeyError` and the sequence is never closed: `close_sequence` fails for all
three outcomes, on every sequence. -/
theorem close_sequence_hit_outcomes_raise :
    ∀ (s : PositionSequence) (exit_price : ℚ) (now : ℤ) (outcome : String),
      outcome = "HIT_TP1" ∨ outcome = "HIT_TP2" ∨ outcome = "HIT_SL" →
      ∃ e, close_sequence s exit_price outcome now = .error e := by
  intro s exit_price now outcome ho
  rcases ho with rfl | rfl | rfl <;>
    exact close_sequence_bad_name s exit_price _ now rfl

/-- Witness for C2: the concrete ACTIVE sequence `seqW`, closed at its own
TP2 price with outcome HIT_TP2, fails instead of closing. -/
theorem close_sequence_hit_outcomes_raise_witness :
    ∃ e, close_sequence seqW (17 / 20) "HIT_TP2" 50 = .error e :=
  close_sequence_hit_outcomes_raise seqW (17 / 20) 50 "HIT_TP2"
    (Or.inr (Or.inl rfl))

/-- C3 counterexample: `close_sequence` performs no status check, so closing
the CANCELLED sequence `seqCancelled` with outcome EXPIRED does not fail
with a validation error — it succeeds and mutates the sequence (status and
`closed_at` change), contradicting the claim that close on a non-ACTIVE
sequence always fails and leaves it unchanged. -/
theorem close_nonactive_mutates_cex :
    seqCancelled.status ≠ SequenceStatus.ACTIVE ∧
    ∃ s', close_sequence seqCancelled (17 / 20) "EXPIRED" 50 = .ok s' ∧
      s'.status = SequenceStatus.EXPIRED ∧
      s'.closed_at = some 50 := by
  refine ⟨by decide, ?_⟩
  exact ⟨_, close_sequence_ok seqCancelled (17 / 20) "EXPIRED" .EXPIRED 50
    (by norm_num [seqCancelled, seqW]) rfl rfl, rfl, rfl⟩

/-- C3 amended: `advance` on a non-ACTIVE sequence always fails with a
ValueError before any mutation, but `close` does not validate the status —
whenever its computation can proceed (nonzero weighted average, and no
ACTIVE child signal with a zero entry price or a `None` effective margin),
any outcome naming a `SequenceStatus` member succeeds and mutates the
sequence regardless of its status (and with the Exit Evaluator's `HIT_*`
outcomes it fails only because of the name-lookup KeyError of C2, not
because of a status validation). -/
theorem advance_nonactive_fails_close_unchecked :
    (∀ (s : PositionSequence) (p mg : ℚ) (lev : Option ℚ) (now : ℤ),
      s.status ≠ SequenceStatus.ACTIVE →
      add_martingale_to_sequence s p mg lev now = .error .valueError) ∧
    (∀ (s : PositionSequence) (exit_price : ℚ) (now : ℤ),
      s.weighted_avg_entry ≠ 0 →
      close_signals_check s.signals = .ok () →
      ∃ s', close_sequence s exit_price "EXPIRED" now = .ok s' ∧
        s'.status = SequenceStatus.EXPIRED) := by
  constructor
  · intro s p mg lev now hA
    unfold add_martingale_to_sequence
    rw [if_pos hA]
  · intro s exit_price now hw hg
    exact ⟨_, close_sequence_ok s exit_price "EXPIRED" .EXPIRED now hw rfl hg,
      rfl⟩

/-- Witness for C3 amended, on the CANCELLED sequence `seqCancelled`. -/
theorem advance_nonactive_fails_close_unchecked_witness :
    add_martingale_to_sequence seqCancelled 1 5 none 9 = .error .valueError ∧
    ∃ s', close_sequence seqCancelled (17 / 20) "EXPIRED" 50 = .ok s' ∧
      s'.status = SequenceStatus.EXPIRED :=
  ⟨advance_nonactive_fails_close_unchecked.1 seqCancelled 1 5 none 9
      (by decide),
    advance_nonactive_fails_close_unchecked.2 seqCancelled (17 / 20) 50
      (by norm_num [seqCancelled, seqW]) rfl⟩

/-- C4 counterexample: `add_martingale_to_sequence` has no max-step check.
On the ACTIVE sequence `seqAtCap` with `current_step = max_steps = 5`,
`advance` does not fail with InvalidState — it succeeds, appends the entry
and increments `current_step` to 6, past the cap, so the invariant
`current_step ≤ max_steps` is not maintained by `advance`. -/
theorem advance_past_cap_cex :
    seqAtCap.status = SequenceStatus.ACTIVE ∧
    seqAtCap.current_step = seqAtCap.max_steps ∧
    ∃ s', add_martingale_to_sequence seqAtCap (6 / 5) 50 none 9 = .ok s' ∧
      s'.current_step = 6 ∧ s'.max_steps < s'.current_step := by
  refine ⟨rfl, rfl, ?_⟩
  refine ⟨_, add_martingale_ok seqAtCap (6 / 5) 50 none 9 rfl
    (by norm_num [seqAtCap, seqW]), rfl, by decide⟩

/-- C4 amended: the step cap is enforced only by the Trigger Evaluator —
`should_add_martingale` returns `(false, {})` whenever
`current_step ≥ max_steps` — while `advance` performs no max-step check and
increments `current_step` unconditionally on any ACTIVE sequence, so
invoking it at `current_step = max_steps` pushes the step past the cap
instead of failing with InvalidState. -/
theorem step_cap_enforced_only_in_trigger_evaluator :
    (∀ (m : MartingaleManager) (s : PositionSequence) (p : ℚ) (now : ℤ),
      m.max_steps ≤ s.current_step →
      should_add_martingale m s p now = .ok (false, none)) ∧
    (∀ (s : PositionSequence) (p mg : ℚ) (lev : Option ℚ) (now : ℤ),
      s.status = SequenceStatus.ACTIVE → s.total_margin + mg ≠ 0 →
      ∃ s', add_martingale_to_sequence s p mg lev now = .ok s' ∧
        s'.current_step = s.current_step + 1 ∧
        s'.max_steps = s.max_steps) := by
  constructor
  · intro m s p now hcap
    unfold should_add_martingale
    by_cases h1 : s.status ≠ SequenceStatus.ACTIVE
    · rw [if_pos h1]
    · rw [if_neg h1, if_pos hcap]
  · intro s p mg lev now hA hne
    exact ⟨_, add_martingale_ok s p mg lev now hA hne, rfl, rfl⟩

/-- Witness for C4 amended: at the cap, the Evaluator declines but
`advance` still succeeds and steps to 6. -/
theorem step_cap_enforced_only_in_trigger_evaluator_witness :
    should_add_martingale mgrW seqAtCap (6 / 5) 0 = .ok (false, none) ∧
    ∃ s', add_martingale_to_sequence seqAtCap (6 / 5) 50 none 9 = .ok s' ∧
      s'.current_step = seqAtCap.current_step + 1 ∧
      s'.max_steps = seqAtCap.max_steps :=
  ⟨step_cap_enforced_only_in_trigger_evaluator.1 mgrW seqAtCap (6 / 5) 0
      (by decide),
    step_cap_enforced_only_in_trigger_evaluator.2 seqAtCap (6 / 5) 50 none 9
      rfl (by norm_num [seqAtCap, seqW])⟩

/-- C5: `close` computes `pnl_pct` signed by direction from
`weighted_avg_entry` (SHORT: `(avg − exit)/avg · 100`, LONG:
`(exit − avg)/avg · 100`) and `total_pnl = total_margin · leverage ·
pnl_pct/100` with `leverage = total_leverage or 20`; on the spec's example
(weighted avg 0.007250, SHORT, exit 0.0061625, margin $70, leverage 20)
both the manager's `calculate_sequence_pnl` and `close_sequence` yield
`pnl_pct = 15` and `total_pnl = 210`. -/
theorem close_pnl_from_weighted_avg :
    (∀ (s : PositionSequence) (exit_price : ℚ) (outcome : String)
        (st : SequenceStatus) (now : ℤ),
      s.weighted_avg_entry ≠ 0 → SequenceStatus.ofName outcome = some st →
      close_signals_check s.signals = .ok () →
      ∃ s', close_sequence s exit_price outcome now = .ok s' ∧
        s'.total_pnl_pct = some
          (match s.direction with
           | .SHORT => ((s.weighted_avg_entry - exit_price) /
               s.weighted_avg_entry) * 100
           | .LONG => ((exit_price - s.weighted_avg_entry) /
               s.weighted_avg_entry) * 100) ∧
        s'.total_pnl = some (s.total_margin * orFloat s.total_leverage 20 *
          ((match s.direction with
            | .SHORT => ((s.weighted_avg_entry - exit_price) /
                s.weighted_avg_entry) * 100
            | .LONG => ((exit_price - s.weighted_avg_entry) /
                s.weighted_avg_entry) * 100) / 100))) ∧
    (∃ r, calculate_sequence_pnl seqPnl (493 / 80000) = .ok r ∧
      r.pnl_pct = 15 ∧ r.total_pnl = 210) ∧
    (∃ s', close_sequence seqPnl (493 / 80000) "CLOSED_TP2" 99 = .ok s' ∧
      s'.total_pnl_pct = some 15 ∧ s'.total_pnl = some 210) := by
  refine ⟨?_, ?_, ?_⟩
  · intro s exit_price outcome st now hw hst hg
    exact ⟨_, close_sequence_ok s exit_price outcome st now hw hst hg,
      rfl, rfl⟩
  · simp only [calculate_sequence_pnl, seqPnl, seqW]
    rw [if_neg (by norm_num), if_neg (by norm_num)]
    refine ⟨_, rfl, by norm_num, by norm_num [orFloat]⟩
  · refine ⟨_, close_sequence_ok seqPnl (493 / 80000) "CLOSED_TP2"
      .CLOSED_TP2 99 (by norm_num [seqPnl, seqW]) rfl rfl, ?_, ?_⟩
    · simp only [seqPnl, seqW]
      norm_num
    · simp only [seqPnl, seqW, orFloat]
      norm_num

/-- Witness for C5's universally quantified part, at the spec's example
closed with the (valid) terminal name CLOSED_TP2. -/
theorem close_pnl_from_weighted_avg_witness :
    ∃ s', close_sequence seqPnl (493 / 80000) "CLOSED_TP2" 99 = .ok s' ∧
      s'.total_pnl_pct = some
        (match seqPnl.direction with
         | .SHORT => ((seqPnl.weighted_avg_entry - 493 / 80000) /
             seqPnl.weighted_avg_entry) * 100
         | .LONG => ((493 / 80000 - seqPnl.weighted_avg_entry) /
             seqPnl.weighted_avg_entry) * 100) ∧
      s'.total_pnl = some (seqPnl.total_margin *
        orFloat seqPnl.total_leverage 20 *
        ((match seqPnl.direction with
          | .SHORT => ((seqPnl.weighted_avg_entry - 493 / 80000) /
              seqPnl.weighted_avg_entry) * 100
          | .LONG => ((493 / 80000 - seqPnl.weighted_avg_entry) /
              seqPnl.weighted_avg_entry) * 100) / 100)) :=
  close_pnl_from_weighted_avg.1 seqPnl (493 / 80000) "CLOSED_TP2"
    .CLOSED_TP2 99 (by norm_num [seqPnl, seqW]) rfl rfl

/-- C6: on an ACTIVE sequence whose `current_tp2` is set and nonzero, a
price that qualifies for TP2 on the sequence's side (price ≤ tp2 for SHORT,
price ≥ tp2 for LONG) always yields HIT_TP2 — TP2 is checked before TP1, so
the Exit Evaluator never returns HIT_TP1 when the price also qualifies for
HIT_TP2. -/
theorem exit_evaluator_tp2_precedence :
    ∀ (s : PositionSequence) (price t2 : ℚ),
      s.status = SequenceStatus.ACTIVE → s.current_tp2 = some t2 → t2 ≠ 0 →
      ((s.direction = .SHORT → price ≤ t2 →
          check_sequence_close s price = (true, some "HIT_TP2")) ∧
       (s.direction = .LONG → t2 ≤ price →
          check_sequence_close s price = (true, some "HIT_TP2"))) := by
  intro s price t2 hA ht2 hne
  constructor
  · intro hd hp
    unfold check_sequence_close
    rw [if_neg (by simp [hA])]
    simp [hd, ht2, truthy, hne, hp]
  · intro hd hp
    unfold check_sequence_close
    rw [if_neg (by simp [hA])]
    simp [hd, ht2, truthy, hne, hp]

/-- Witness for C6: `seqW` (SHORT, tp2 = 0.85) at price 0.80, which is past
both TP1 (0.90) and TP2 (0.85), closes as HIT_TP2, not HIT_TP1. -/
theorem exit_evaluator_tp2_precedence_witness :
    check_sequence_close seqW (4 / 5) = (true, some "HIT_TP2") :=
  (exit_evaluator_tp2_precedence seqW (4 / 5) (17 / 20) rfl rfl
    (by norm_num)).1 rfl (by norm_num)

/-- C7: under the tracker's protocol — a positive Trigger-Evaluator verdict
is followed by stamping `last_martingale_suggestion_at` with the first
call's time — a second evaluation of the same sequence within the cooldown
window never triggers again: two calls within the window never both return
`shouldTrigger = true`. -/
theorem trigger_cooldown_blocks_second_trigger :
    ∀ (m : MartingaleManager) (s : PositionSequence) (p1 p2 : ℚ)
      (t1 t2 : ℤ) (o : Option Suggestion),
      should_add_martingale m s p1 t1 = .ok (true, o) →
      t2 - t1 < m.cooldown_minutes * 60 →
      should_add_martingale m (update_suggestion_time s t1) p2 t2 =
        .ok (false, none) := by
  intro m s p1 p2 t1 t2 o h hcool
  obtain ⟨hA, hstep, -⟩ := should_add_true_elim m s p1 t1 o h
  unfold should_add_martingale update_suggestion_time
  rw [if_neg (by simp [hA]), if_neg (by simp; omega)]
  simp [hcool]

/-- Witness for C7: `seqW` triggers at time 1000; after the stamp, the
call at time 1200 (within the 30-minute window) declines. -/
theorem trigger_cooldown_blocks_second_trigger_witness :
    should_add_martingale mgrW (update_suggestion_time seqW 1000) (6 / 5)
      1200 = .ok (false, none) :=
  trigger_cooldown_blocks_second_trigger mgrW seqW (6 / 5) (6 / 5) 1000 1200
    (some propW) should_add_mgrW_seqW (by norm_num [mgrW])

/-- C8 counterexample: `advance` accepts a negative margin with no
validation failure: adding margin −30 to the ACTIVE sequence `seqW` (total
margin 20) succeeds, executing the division with the negative denominator
20 + (−30) = −10, contradicting the claim that `newMargin ≤ 0` is rejected
before the division. -/
theorem advance_accepts_negative_margin_cex :
    ∃ s', add_martingale_to_sequence seqW 1 (-30) none 9 = .ok s' ∧
      s'.total_margin = -10 := by
  refine ⟨_, add_martingale_ok seqW 1 (-30) none 9 rfl
    (by norm_num [seqW]), ?_⟩
  simp only [seqW]
  norm_num

/-- C8 amended: neither the Weighted-Average Calculator nor `advance`
validates margins.  On an ACTIVE sequence `advance` succeeds for every
margin — including `newMargin ≤ 0` and `priorTotalMargin ≤ 0` — whenever
the denominator `priorTotalMargin + newMargin` is nonzero; only an exactly
zero denominator fails, and then as an unguarded ZeroDivisionError at the
division itself, not as a prior input-validation failure. -/
theorem advance_has_no_margin_validation :
    (∀ (s : PositionSequence) (p mg : ℚ) (lev : Option ℚ) (now : ℤ),
      s.status = SequenceStatus.ACTIVE → s.total_margin + mg ≠ 0 →
      ∃ s', add_martingale_to_sequence s p mg lev now = .ok s' ∧
        s'.total_margin = s.total_margin + mg) ∧
    (∀ (s : PositionSequence) (p mg : ℚ) (lev : Option ℚ) (now : ℤ),
      s.status = SequenceStatus.ACTIVE → s.total_margin + mg = 0 →
      add_martingale_to_sequence s p mg lev now =
        .error .zeroDivisionError) := by
  constructor
  · intro s p mg lev now hA hne
    exact ⟨_, add_martingale_ok s p mg lev now hA hne, rfl⟩
  · intro s p mg lev now hA hz
    unfold add_martingale_to_sequence
    rw [if_neg (by simp [hA]), if_pos hz]

/-- Witness for C8 amended: margin −30 on `seqW` is accepted; margin −20
zeroes the denominator and fails with the division error. -/
theorem advance_has_no_margin_validation_witness :
    (∃ s', add_martingale_to_sequence seqW 1 (-30) none 9 = .ok s' ∧
      s'.total_margin = seqW.total_margin + (-30)) ∧
    add_martingale_to_sequence seqW 1 (-20) none 9 =
      .error .zeroDivisionError :=
  ⟨advance_has_no_margin_validation.1 seqW 1 (-30) none 9 rfl
      (by norm_num [seqW]),
    advance_has_no_margin_validation.2 seqW 1 (-20) none 9 rfl
      (by norm_num [seqW])⟩

/-- C9: whenever the Trigger Evaluator (configured with the `main.py`
percentages tp1 = 10, tp2 = 15) returns a proposal, invoking `advance` with
the proposal's suggested entry price and margin installs exactly the
proposal's projected weighted average and projected TP1/TP2 on the
sequence. -/
theorem trigger_projection_matches_advance :
    ∀ (m : MartingaleManager) (s : PositionSequence) (p : ℚ) (now : ℤ)
      (prop : Suggestion),
      m.tp1_percent = 10 → m.tp2_percent = 15 →
      should_add_martingale m s p now = .ok (true, some prop) →
      ∃ s', add_martingale_to_sequence s prop.suggested_entry
          prop.suggested_margin none now = .ok s' ∧
        s'.weighted_avg_entry = prop.new_weighted_avg ∧
        s'.current_tp1 = some prop.new_tp1 ∧
        s'.current_tp2 = some prop.new_tp2 := by
  intro m s p now prop h10 h15 h
  obtain ⟨hA, -, hcp⟩ := should_add_true_elim m s p now (some prop) h
  obtain ⟨sm, hsm, hne, hse, hsm', havg, htp1, htp2⟩ :=
    checks_passed_true_elim m s p prop hcp
  rw [hse, hsm']
  refine ⟨_, add_martingale_ok s p sm none now hA hne, ?_, ?_, ?_⟩
  · rw [havg]
    rfl
  · rw [htp1]
    cases hd : s.direction <;>
      simp [calculate_new_tps, calculate_new_weighted_avg, hd, h10] <;>
      ring_nf <;> tauto
  · rw [htp2]
    cases hd : s.direction <;>
      simp [calculate_new_tps, calculate_new_weighted_avg, hd, h15] <;>
      ring_nf <;> tauto

/-- Witness for C9: the concrete trigger run on `seqW` (suggestion `propW`)
followed by `advance` with the suggested entry/margin reproduces the
projected average 8/7 and the projected TPs. -/
theorem trigger_projection_matches_advance_witness :
    ∃ s', add_martingale_to_sequence seqW propW.suggested_entry
        propW.suggested_margin none 1000 = .ok s' ∧
      s'.weighted_avg_entry = propW.new_weighted_avg ∧
      s'.current_tp1 = some propW.new_tp1 ∧
      s'.current_tp2 = some propW.new_tp2 :=
  trigger_projection_matches_advance mgrW seqW (6 / 5) 1000 propW rfl rfl
    should_add_mgrW_seqW

/-- C10 (implicit): the Exit Evaluator treats a `None` or exactly-zero
level as absent — it never returns the outcome belonging to such a level,
and with all three levels unset or zero it never closes the sequence at
all, for every current price. -/
theorem exit_unset_levels_never_fire :
    ∀ (s : PositionSequence) (price : ℚ),
      ((s.current_tp2 = none ∨ s.current_tp2 = some 0) →
        (check_sequence_close s price).2 ≠ some "HIT_TP2") ∧
      ((s.current_tp1 = none ∨ s.current_tp1 = some 0) →
        (check_sequence_close s price).2 ≠ some "HIT_TP1") ∧
      ((s.current_sl = none ∨ s.current_sl = some 0) →
        (check_sequence_close s price).2 ≠ some "HIT_SL") ∧
      ((s.current_tp2 = none ∨ s.current_tp2 = some 0) →
        (s.current_tp1 = none ∨ s.current_tp1 = some 0) →
        (s.current_sl = none ∨ s.current_sl = some 0) →
        check_sequence_close s price = (false, none)) := by
  intro s price
  by_cases hA : s.status ≠ SequenceStatus.ACTIVE
  · unfold check_sequence_close
    rw [if_pos hA]
    exact ⟨fun _ => by simp, fun _ => by simp, fun _ => by simp,
      fun _ _ _ => rfl⟩
  · unfold check_sequence_close
    rw [if_neg hA]
    cases hd : s.direction
    · simp only [hd]
      refine ⟨fun h2 => ?_, fun h1 => ?_, fun hsl => ?_,
        fun h2 h1 hsl => ?_⟩
      · rw [if_neg (by simp [truthy_eq_false _ h2])]
        split
        · decide
        · split
          · decide
          · decide
      · split
        · decide
        · rw [if_neg (by simp [truthy_eq_false _ h1])]
          split
          · decide
          · decide
      · split
        · decide
        · split
          · decide
          · rw [if_neg (by simp [truthy_eq_false _ hsl])]
            decide
      · rw [if_neg (by simp [truthy_eq_false _ h2]),
          if_neg (by simp [truthy_eq_false _ h1]),
          if_neg (by simp [truthy_eq_false _ hsl])]
    · simp only [hd]
      refine ⟨fun h2 => ?_, fun h1 => ?_, fun hsl => ?_,
        fun h2 h1 hsl => ?_⟩
      · rw [if_neg (by simp [truthy_eq_false _ h2])]
        split
        · decide
        · split
          · decide
          · decide
      · split
        · decide
        · rw [if_neg (by simp [truthy_eq_false _ h1])]
          split
          · decide
          · decide
      · split
        · decide
        · split
          · decide
          · rw [if_neg (by simp [truthy_eq_false _ hsl])]
            decide
      · rw [if_neg (by simp [truthy_eq_false _ h2]),
          if_neg (by simp [truthy_eq_false _ h1]),
          if_neg (by simp [truthy_eq_false _ hsl])]

/-- Witness for C10: `seqNoLevels` (tp1 unset, tp2 = 0, sl unset) is never
closed by the evaluator, here at price 0.5, which is far past where TP
levels would sit. -/
theorem exit_unset_levels_never_fire_witness :
    check_sequence_close seqNoLevels (1 / 2) = (false, none) :=
  (exit_unset_levels_never_fire seqNoLevels (1 / 2)).2.2.2 (Or.inr rfl)
    (Or.inl rfl) (Or.inl rfl)

end SignalA
